import Mathlib

/-
Shallow embedding of the cf-describe plugin (src/describe.go).

The plugin's side effects are made explicit:
  * calls through the CLI connection (curl requests, Username, GetSpaces)
    are recorded in order as `ApiCall` values;
  * text written to the `bytes.Buffer` named `response` is accumulated in
    a separate `out : String` field (it reaches stdout only through the
    final `fmt.Println(response.String())`);
  * `Warn` (os.Exit(0)), `Fail` (os.Exit(1)) and Go run-time panics
    (failed type assertions, out-of-range indexing) abort the linear
    control flow and are modelled as `Halt` values.

Terminal colouring (`terminal.EntityNameColor`, `WarningColor`,
`FailureColor`) is out of scope per the specification; with colouring
disabled these functions return their argument unchanged, so they are
embedded as the identity on strings.
-/

set_option autoImplicit false

namespace CfDescribe

/-- A JSON value as decoded by Go's `encoding/json` into `interface{}`
inside the `Metadata`/`Entity` maps of `CurlResponse`.  JSON numbers
(Go `float64`) are represented by `Int`; no claim touches a numeric
metadata or entity field.  Nested arrays/objects are not represented:
like `jnum`/`jbool`/`jnull` they would fail a `.(string)` type
assertion, which is all the program does with non-string values. -/
inductive JVal where
  | jstr : String → JVal
  | jnum : Int → JVal
  | jbool : Bool → JVal
  | jnull : JVal
deriving DecidableEq, Repr

/-- One element of `CurlResponse.Resources`: the anonymous struct with
`Metadata` and `Entity` maps (`map[string]interface{}`).  The maps are
embedded as association lists with distinct keys. -/
structure Resource where
  Metadata : List (String × JVal)
  Entity : List (String × JVal)
deriving DecidableEq, Repr

/-- The response envelope `CurlResponse` (src/describe.go lines 87-93). -/
structure CurlResponse where
  TotalResults : Int
  Resources : List Resource
deriving DecidableEq, Repr

/-- `plugin_models.GetSpaces_Model`: the space model handed back by the
host runtime's `GetSpaces`, with its `Guid` and `Name` fields.  Its Go
zero value is `{Guid: "", Name: ""}`. -/
structure GetSpaces_Model where
  Guid : String
  Name : String
deriving DecidableEq, Repr

/-- `plugin_models.GetOrgs_Model`: the organization model (`Guid`, `Name`). -/
structure GetOrgs_Model where
  Guid : String
  Name : String
deriving DecidableEq, Repr

/-- A Go map lookup `m["k"]` on a `map[string]interface{}`: `none` is the
`nil` interface returned for a missing key. -/
def mapGet (m : List (String × JVal)) (k : String) : Option JVal :=
  List.lookup k m

/-- The Go type assertion `v.(string)`: succeeds exactly on string values;
on a missing key (`nil`) or any non-string value it panics, which the
caller surfaces as a `Halt.panicH`. -/
def assertString : Option JVal → Option String
  | some (.jstr s) => some s
  | _ => none

/-- `fmt.Sprintf("%s", v)` applied to an `interface{}` drawn from a
decoded JSON map (used for `brokerGUID`).  A string prints as itself;
a `nil` interface (missing key, or JSON `null`) prints as
`%!s(<nil>)`; other values print with fmt's bad-verb notation.  Every
claim exercises only the string case. -/
def gofmtS : Option JVal → String
  | some (.jstr s) => s
  | some (.jnum n) => "%!s(float64=" ++ toString n ++ ")"
  | some (.jbool b) => "%!s(bool=" ++ (if b then "true" else "false") ++ ")"
  | some .jnull => "%!s(<nil>)"
  | none => "%!s(<nil>)"

/-- `terminal.EntityNameColor` with colouring disabled: the identity. -/
def Entity (s : String) : String := s

/-- The text `Fail` prints to stdout before `os.Exit(1)`
(src/describe.go lines 185-188), with `FailureColor` the identity. -/
def FailText (message err : String) : String :=
  "FAILED: " ++ message ++ ". Error: " ++ err

/-- The text `Warn` prints to stdout before `os.Exit(0)`
(src/describe.go lines 190-193), with `WarningColor` the identity.
(`Warn` passes the message as a `Printf` format string; the mangling Go
would apply to a `%` directive inside a broker name is not modelled —
no claim depends on it.) -/
def WarnText (message : String) : String := message

/-- UTF-8 encoding of a Unicode scalar value, as Go strings are stored.
Used by the model of `url.QueryEscape`, which works byte-by-byte. -/
def utf8Bytes (c : Char) : List Nat :=
  let n := c.toNat
  if n < 128 then [n]
  else if n < 2048 then [192 + n / 64, 128 + n % 64]
  else if n < 65536 then [224 + n / 4096, 128 + (n / 64) % 64, 128 + n % 64]
  else [240 + n / 262144, 128 + (n / 4096) % 64, 128 + (n / 64) % 64, 128 + n % 64]

/-- Upper-case hexadecimal digit, as `net/url` uses for percent-escapes. -/
def hexDigit (n : Nat) : Char :=
  if n < 10 then Char.ofNat (48 + n) else Char.ofNat (55 + n)

/-- A byte that `url.QueryEscape` leaves unescaped: ASCII alphanumerics
and `-`, `_`, `.`, `~`. -/
def isUnreservedByte (b : Nat) : Bool :=
  (48 ≤ b && b ≤ 57) || (65 ≤ b && b ≤ 90) || (97 ≤ b && b ≤ 122) ||
  b == 45 || b == 95 || b == 46 || b == 126

/-- Escape one byte the way `url.QueryEscape` does: space becomes `+`,
unreserved bytes pass through, everything else becomes `%XX`. -/
def escapeByte (b : Nat) : String :=
  if b == 32 then "+"
  else if isUnreservedByte b then String.singleton (Char.ofNat b)
  else "%" ++ String.singleton (hexDigit (b / 16)) ++ String.singleton (hexDigit (b % 16))

/-- Model of Go `url.QueryEscape` (net/url): escapes the UTF-8 bytes of
the string so it can be placed inside a URL query. -/
def QueryEscape (s : String) : String :=
  String.join (s.data.map fun c => String.join ((utf8Bytes c).map escapeByte))

/-- A call made through the host CLI connection. -/
inductive ApiCall where
  | curlGet : String → ApiCall
  | username : ApiCall
  | getSpaces : ApiCall
deriving DecidableEq, Repr

/-- An abort of the linear control flow: `Warn` (exit 0), `Fail`
(exit 1, with message and error text), or a Go run-time panic. -/
inductive Halt where
  | warnH : String → Halt
  | failH : String → String → Halt
  | panicH : Halt
deriving DecidableEq, Repr

/-- How an invocation ends: normal return, `os.Exit(code)`, or a panic. -/
inductive Outcome where
  | ok : Outcome
  | exit : Nat → Outcome
  | panicked : Outcome
deriving DecidableEq, Repr

/-- A step of the plugin's execution: the API calls it makes (in order),
the text it writes to the `response` buffer, and either a value or a
`Halt`. -/
structure Step (α : Type) where
  calls : List ApiCall
  out : String
  result : Except Halt α

def Step.bind {α β : Type} : Step α → (α → Step β) → Step β
  | ⟨calls, out, .error h⟩, _ => ⟨calls, out, .error h⟩
  | ⟨calls, out, .ok a⟩, f =>
    ⟨calls ++ (f a).calls, out ++ (f a).out, (f a).result⟩

def Step.pure {α : Type} (a : α) : Step α := ⟨[], "", .ok a⟩

def Step.halt {α : Type} (h : Halt) : Step α := ⟨[], "", .error h⟩

/-- A `response.WriteString(s)` call. -/
def Step.write (s : String) : Step Unit := ⟨[], s, .ok ()⟩

/-- The external world of one invocation: what the authenticated `curl`
command yields for each endpoint (`.error e` is a JSON decode failure
with error text `e`, `.ok` the decoded envelope), plus the username and
space list the host connection reports. -/
structure Env where
  curl : String → Except String CurlResponse
  username : String
  spaces : List GetSpaces_Model

/-- `d.curl(endpoint)` (src/describe.go lines 170-179): one
`CliCommandWithoutTerminalOutput("curl", endpoint)` call whose joined
output is JSON-decoded; a decode error invokes
`Fail(err, "could not unmarshal response")`. -/
def curl (env : Env) (endpoint : String) : Step CurlResponse :=
  match env.curl endpoint with
  | .ok r => ⟨[.curlGet endpoint], "", .ok r⟩
  | .error e => ⟨[.curlGet endpoint], "", .error (.failH "could not unmarshal response" e)⟩

/-- `d.cliConnection.Username()` (error ignored by the source). -/
def usernameStep (env : Env) : Step String := ⟨[.username], "", .ok env.username⟩

/-- `d.cliConnection.GetSpaces()` (error ignored by the source). -/
def getSpacesStep (env : Env) : Step (List GetSpaces_Model) :=
  ⟨[.getSpaces], "", .ok env.spaces⟩

/-- `findSpace` (src/describe.go lines 148-155): linear scan returning
the first space whose `Guid` matches, or the zero-value model. -/
def findSpace : List GetSpaces_Model → String → GetSpaces_Model
  | [], _ => ⟨"", ""⟩
  | s :: rest, spaceGUID => if s.Guid = spaceGUID then s else findSpace rest spaceGUID

/-- `findOrg` (src/describe.go lines 157-164): same scan over org models. -/
def findOrg : List GetOrgs_Model → String → GetOrgs_Model
  | [], _ => ⟨"", ""⟩
  | s :: rest, orgGUID => if s.Guid = orgGUID then s else findOrg rest orgGUID

/-- Indexing the `orgs` Go map built by `getOrgs`: a missing key yields
the zero value `""`.  The map is represented as an association list in
which the most recent insertion is at the head, so first-match lookup
realises the map's last-write-wins overwrite semantics. -/
def orgLookup (orgs : List (String × String)) (guid : String) : String :=
  (List.lookup guid orgs).getD ""

/-- Loop body of `getOrgs` (src/describe.go lines 139-146): one org
query per space, reading `Resources[0].Entity["name"].(string)` with no
emptiness check — an empty `Resources` or a non-string name panics. -/
def getOrgsAux (env : Env) (acc : List (String × String)) :
    List GetSpaces_Model → Step (List (String × String))
  | [] => Step.pure acc
  | space :: rest =>
    Step.bind (curl env ("/v2/organizations?q=space_guid:" ++ space.Guid)) fun orgResponse =>
    match orgResponse.Resources with
    | [] => Step.halt .panicH
    | r0 :: _ =>
      match assertString (mapGet r0.Entity "name") with
      | none => Step.halt .panicH
      | some orgName => getOrgsAux env ((space.Guid, orgName) :: acc) rest

/-- `d.getOrgs(spaces)` (src/describe.go lines 139-146). -/
def getOrgs (env : Env) (spaces : List GetSpaces_Model) : Step (List (String × String)) :=
  getOrgsAux env [] spaces

/-- One instance line of the report (src/describe.go lines 118-132):
the two-space indent, the optional `Guid:` part when show-guids is set,
then the `Name`/`Org`/`Space` part.  `none` models the panic of a
failed `.(string)` assertion (on `space_guid`, the instance guid, or
the instance name — in that evaluation order). -/
def instLine (spaces : List GetSpaces_Model) (orgs : List (String × String))
    (showGuids : Bool) (instance_ : Resource) : Option String :=
  match assertString (mapGet instance_.Entity "space_guid") with
  | none => none
  | some spaceGuid =>
    let space := findSpace spaces spaceGuid
    match (if showGuids then
             match assertString (mapGet instance_.Metadata "guid") with
             | none => none
             | some g => some ("Guid: " ++ Entity g ++ " - ")
           else some "") with
    | none => none
    | some guidPart =>
      match assertString (mapGet instance_.Entity "name") with
      | none => none
      | some nm =>
        some ("  " ++ guidPart ++
          ("Name: " ++ Entity nm ++ " - Org: " ++ Entity (orgLookup orgs space.Guid) ++
           " - Space: " ++ Entity space.Name ++ "\n"))

/-- The inner instance loop of `DescribeBroker`.  (On a panic the
partial writes of the current line are dropped from `out`; the buffer
is never observable on a panic, since it is printed only by the final
`fmt.Println`.) -/
def instLoop (spaces : List GetSpaces_Model) (orgs : List (String × String))
    (showGuids : Bool) : List Resource → Step Unit
  | [] => Step.pure ()
  | instance_ :: rest =>
    match instLine spaces orgs showGuids instance_ with
    | none => Step.halt .panicH
    | some line => Step.bind (Step.write line) fun _ => instLoop spaces orgs showGuids rest

/-- One iteration of the plan loop (src/describe.go lines 114-134):
fetch the plan's instances from its `service_instances_url` (a failed
string assertion on that field panics), and when `TotalResults > 0`
write the `Plan <name>:` header followed by the instance lines. -/
def planBlock (env : Env) (spaces : List GetSpaces_Model)
    (orgs : List (String × String)) (showGuids : Bool) (plan : Resource) : Step Unit :=
  match assertString (mapGet plan.Entity "service_instances_url") with
  | none => Step.halt .panicH
  | some instancesUrl =>
    Step.bind (curl env instancesUrl) fun instances =>
    if 0 < instances.TotalResults then
      match assertString (mapGet plan.Entity "name") with
      | none => Step.halt .panicH
      | some planName =>
        Step.bind (Step.write ("Plan " ++ Entity planName ++ ":\n")) fun _ =>
        instLoop spaces orgs showGuids instances.Resources
    else Step.pure ()

/-- The plan loop of `DescribeBroker` over `plansResponse.Resources`. -/
def planLoop (env : Env) (spaces : List GetSpaces_Model)
    (orgs : List (String × String)) (showGuids : Bool) : List Resource → Step Unit
  | [] => Step.pure ()
  | plan :: rest =>
    Step.bind (planBlock env spaces orgs showGuids plan) fun _ =>
    planLoop env spaces orgs showGuids rest

/-- `d.DescribeBroker()` (src/describe.go lines 94-137) as a `Step`:
broker query, not-found warning, `Resources[0]` guid read, username,
report header, plan query, no-plans warning, `GetSpaces`, `getOrgs`,
then the plan loop. -/
def DescribeBrokerStep (env : Env) (brokerName : String) (showGuids : Bool) : Step Unit :=
  Step.bind (curl env ("/v2/service_brokers?q=name:" ++ QueryEscape brokerName)) fun curlResponse =>
  if curlResponse.TotalResults = 0 then Step.halt (.warnH (WarnText (brokerName ++ " not found"))) else
  match curlResponse.Resources with
  | [] => Step.halt .panicH
  | r0 :: _ =>
    Step.bind (usernameStep env) fun username =>
    Step.bind (Step.write ("Describing broker " ++ Entity brokerName ++ " as visible by " ++ Entity username ++ "\n\n")) fun _ =>
    Step.bind (curl env ("/v2/service_plans?q=service_broker_guid:" ++ gofmtS (mapGet r0.Metadata "guid"))) fun plansResponse =>
    if plansResponse.TotalResults = 0 then Step.halt (.warnH (WarnText (brokerName ++ " has no plans"))) else
    Step.bind (getSpacesStep env) fun spaces =>
    Step.bind (getOrgs env spaces) fun orgs =>
    planLoop env spaces orgs showGuids plansResponse.Resources

/-- The observable result of an invocation: what reached stdout, what
was written to the `response` buffer, the API calls made, and how the
process ended. -/
structure RunResult where
  printed : String
  buffered : String
  calls : List ApiCall
  outcome : Outcome
deriving DecidableEq, Repr

/-- Turn a completed `Step` into its observable result: on normal
completion the buffer is flushed by `fmt.Println(response.String())`
(which appends a newline); `Warn`/`Fail` print their own text and exit
without flushing; a panic prints nothing to stdout. -/
def finishStep (st : Step Unit) : RunResult :=
  match st.result with
  | .ok _ => ⟨st.out ++ "\n", st.out, st.calls, .ok⟩
  | .error (.warnH m) => ⟨m, st.out, st.calls, .exit 0⟩
  | .error (.failH m e) => ⟨FailText m e, st.out, st.calls, .exit 1⟩
  | .error .panicH => ⟨"", st.out, st.calls, .panicked⟩

/-- `d.DescribeBroker()` observed end-to-end. -/
def DescribeBroker (env : Env) (brokerName : String) (showGuids : Bool) : RunResult :=
  finishStep (DescribeBrokerStep env brokerName showGuids)

/-- `d.DescribeService()` (src/describe.go lines 166-168): empty body. -/
def DescribeService : RunResult := ⟨"", "", [], .ok⟩

/-- The three fields `ParseFlags` stores on the plugin
(`brokerName`, `serviceName`, `showGuids`), with their zero values as
defaults (`flagSet.String(..., "", ...)`, `flagSet.Bool(..., false, ...)`). -/
structure Flags where
  b : String
  s : String
  showGuids : Bool
deriving DecidableEq, Repr

/-- Go `strconv.ParseBool`, used by the flag package for `=value` forms
of a boolean flag. -/
def parseBoolValue (v : String) : Option Bool :=
  if v = "1" ∨ v = "t" ∨ v = "T" ∨ v = "true" ∨ v = "TRUE" ∨ v = "True" then some true
  else if v = "0" ∨ v = "f" ∨ v = "F" ∨ v = "false" ∨ v = "FALSE" ∨ v = "False" then some false
  else none

/-- Split `name=value` at the first `=`, as the flag package does. -/
def splitEqAux (acc : List Char) : List Char → Option (String × String)
  | [] => none
  | '=' :: rest => some (String.mk acc.reverse, String.mk rest)
  | c :: rest => splitEqAux (c :: acc) rest

/-- The parsing loop of the Go standard `flag` package (`parseOne`,
iterated by `FlagSet.Parse`) for the flag set `ParseFlags` builds:
string flags `b` and `s`, boolean flag `show-guids`.  An argument
shorter than two characters or not starting with `-`, or the bare
terminator `--`, stops parsing with success (remaining arguments become
positional and are ignored by the plugin); an undefined flag, a bad
bool value, a missing string-flag argument, malformed `-`-syntax, or
`-h`/`-help` yields an error, which `ParseFlags` turns into
`Fail(err, "cannot parse flags")`. -/
def parseLoop (fl : Flags) (args : List String) : Except String Flags :=
  match args with
  | [] => .ok fl
  | a :: rest =>
    match a.data with
    | '-' :: c1 :: cs =>
      if c1 = '-' ∧ cs = [] then .ok fl
      else
        let nameChars := if c1 = '-' then cs else c1 :: cs
        match nameChars.head? with
        | none => .error ("bad flag syntax: " ++ a)
        | some c0 =>
          if c0 = '-' ∨ c0 = '=' then .error ("bad flag syntax: " ++ a)
          else
            match splitEqAux [] nameChars with
            | some (name, value) =>
              if name = "b" then parseLoop { fl with b := value } rest
              else if name = "s" then parseLoop { fl with s := value } rest
              else if name = "show-guids" then
                match parseBoolValue value with
                | some bv => parseLoop { fl with showGuids := bv } rest
                | none => .error ("invalid boolean value " ++ value ++ " for -show-guids")
              else if name = "help" ∨ name = "h" then .error "flag: help requested"
              else .error ("flag provided but not defined: -" ++ name)
            | none =>
              let name := String.mk nameChars
              if name = "b" then
                match rest with
                | v :: rest2 => parseLoop { fl with b := v } rest2
                | [] => .error ("flag needs an argument: -" ++ name)
              else if name = "s" then
                match rest with
                | v :: rest2 => parseLoop { fl with s := v } rest2
                | [] => .error ("flag needs an argument: -" ++ name)
              else if name = "show-guids" then parseLoop { fl with showGuids := true } rest
              else if name = "help" ∨ name = "h" then .error "flag: help requested"
              else .error ("flag provided but not defined: -" ++ name)
    | _ => .ok fl

/-- `d.ParseFlags(args)` (src/describe.go lines 54-68): parses
`args[1:]` against the three flags; on error the source calls
`Fail(err, "cannot parse flags")` (modelled by the caller `Run`). -/
def ParseFlags (args : List String) : Except String Flags :=
  parseLoop ⟨"", "", false⟩ (args.drop 1)

def emptyResult : RunResult := ⟨"", "", [], .ok⟩

/-- Sequencing of two observable executions: the second runs only when
the first returned normally. -/
def seqResult (r1 r2 : RunResult) : RunResult :=
  match r1.outcome with
  | .ok => ⟨r1.printed ++ r2.printed, r1.buffered ++ r2.buffered, r1.calls ++ r2.calls, r2.outcome⟩
  | _ => r1

/-- `d.Run(cliConnection, args)` (src/describe.go lines 70-84): when
`args[0]` is `"describe"`, parse flags (a parse error prints the `Fail`
text and exits 1), then run `DescribeBroker` when `-b` was non-empty
and `DescribeService` when `-s` was non-empty.  `args[0]` on an empty
vector panics. -/
def Run (env : Env) (args : List String) : RunResult :=
  match args with
  | [] => ⟨"", "", [], .panicked⟩
  | a0 :: rest =>
    if a0 = "describe" then
      match ParseFlags (a0 :: rest) with
      | .error e => ⟨FailText "cannot parse flags" e, "", [], .exit 1⟩
      | .ok fl =>
        seqResult (if fl.b ≠ "" then DescribeBroker env fl.b fl.showGuids else emptyResult)
                  (if fl.s ≠ "" then DescribeService else emptyResult)
    else emptyResult

/-! ### Helper lemmas -/

instance {ε α : Type} [DecidableEq ε] [DecidableEq α] : DecidableEq (Except ε α) := fun x y =>
  match x, y with
  | .error a, .error b =>
    if h : a = b then isTrue (by subst h; rfl) else isFalse (by intro c; injection c; contradiction)
  | .ok a, .ok b =>
    if h : a = b then isTrue (by subst h; rfl) else isFalse (by intro c; injection c; contradiction)
  | .error _, .ok _ => isFalse (by intro c; injection c)
  | .ok _, .error _ => isFalse (by intro c; injection c)

theorem curl_ok {env : Env} {ep : String} {r : CurlResponse} (h : env.curl ep = .ok r) :
    curl env ep = ⟨[.curlGet ep], "", .ok r⟩ := by
  unfold curl; rw [h]

theorem curl_err {env : Env} {ep : String} {e : String} (h : env.curl ep = .error e) :
    curl env ep = ⟨[.curlGet ep], "", .error (.failH "could not unmarshal response" e)⟩ := by
  unfold curl; rw [h]

theorem getOrgsAux_out (env : Env) :
    ∀ (l : List GetSpaces_Model) (acc : List (String × String)),
      (getOrgsAux env acc l).out = "" := by
  intro l
  induction l with
  | nil => intro acc; rfl
  | cons sp rest ih =>
    intro acc
    unfold getOrgsAux
    cases h : env.curl ("/v2/organizations?q=space_guid:" ++ sp.Guid) with
    | error e => rw [curl_err h]; rfl
    | ok resp =>
      rw [curl_ok h]
      cases hr : resp.Resources with
      | nil => simp [Step.bind, hr, Step.halt]
      | cons r0 rs =>
        cases ha : assertString (mapGet r0.Entity "name") with
        | none => simp [Step.bind, hr, ha, Step.halt]
        | some nm => simp [Step.bind, hr, ha, ih]

/-- A trivial environment (every request fails to decode). -/
def envTrivial : Env := ⟨fun _ => .error "no response", "", []⟩

/-! ### Claim theorems -/

/-- **C3** — For every execution of `DescribeBroker` that aborts with a
failure (exit code 1, e.g. a JSON-decode failure in `curl`), the text
printed to stdout is exactly the `Fail` message: none of the report
text already written to the `response` buffer is printed.  The buffer
reaches stdout only through the single `fmt.Println` at the successful
end of `DescribeBroker`. -/
theorem C3_fail_suppresses_buffer (env : Env) (b : String) (g : Bool) :
    ((DescribeBroker env b g).outcome = .exit 1 →
      ∃ m e, (DescribeBroker env b g).printed = FailText m e)
    ∧ ((DescribeBroker env b g).outcome = .ok →
      (DescribeBroker env b g).printed = (DescribeBroker env b g).buffered ++ "\n") := by
  unfold DescribeBroker
  rcases hst : DescribeBrokerStep env b g with ⟨calls, out, result⟩
  cases result with
  | ok a => exact ⟨fun h => by simp [finishStep] at h, fun _ => rfl⟩
  | error h =>
    cases h with
    | warnH m =>
      refine ⟨fun hcontra => ?_, fun hcontra => ?_⟩ <;> simp [finishStep] at hcontra
    | failH m e => exact ⟨fun _ => ⟨m, e, rfl⟩, fun hcontra => by simp [finishStep] at hcontra⟩
    | panicH =>
      refine ⟨fun hcontra => ?_, fun hcontra => ?_⟩ <;> simp [finishStep] at hcontra

/-- Environment for the C3 witness: the broker query decodes, the
subsequent plan query fails to decode, after the report header has
already been buffered. -/
def envFailPlans : Env :=
  { curl := fun ep =>
      if ep = "/v2/service_brokers?q=name:x" then
        .ok ⟨1, [⟨[("guid", .jstr "bg")], []⟩]⟩
      else .error "boom",
    username := "u",
    spaces := [] }

/-- Witness for C3: a concrete run that fails mid-way with a non-empty
buffer prints only the `FAILED` text. -/
theorem C3_witness :
    (∃ m e, (DescribeBroker envFailPlans "x" false).printed = FailText m e)
    ∧ (DescribeBroker envFailPlans "x" false).buffered ≠ "" :=
  ⟨(C3_fail_suppresses_buffer envFailPlans "x" false).1 (by decide), by decide⟩

/-- **C4** — If the arguments after `describe` fail flag parsing, the
process exits with code 1 (via `Fail`), and no API call of any kind is
attempted. -/
theorem C4_parse_error_exits_1 (env : Env) (rest : List String) (e : String)
    (h : ParseFlags ("describe" :: rest) = .error e) :
    (Run env ("describe" :: rest)).outcome = .exit 1
    ∧ (Run env ("describe" :: rest)).calls = []
    ∧ (Run env ("describe" :: rest)).printed = FailText "cannot parse flags" e := by
  simp [Run, h]

/-- Witness for C4: the unknown flag `-x`. -/
theorem C4_witness :
    (Run envTrivial ["describe", "-x"]).outcome = .exit 1
    ∧ (Run envTrivial ["describe", "-x"]).calls = []
    ∧ (Run envTrivial ["describe", "-x"]).printed =
        FailText "cannot parse flags" "flag provided but not defined: -x" :=
  C4_parse_error_exits_1 envTrivial ["-x"] "flag provided but not defined: -x" (by decide)

/-- **C5** — Invoking `Run` with first argument `describe` and flags
parsing to empty `-b` and `-s` makes no API call and produces no
output. -/
theorem C5_no_flags_no_effect (env : Env) (rest : List String) (fl : Flags)
    (h : ParseFlags ("describe" :: rest) = .ok fl) (hb : fl.b = "") (hs : fl.s = "") :
    Run env ("describe" :: rest) = ⟨"", "", [], .ok⟩ := by
  simp [Run, h, hb, hs, seqResult, emptyResult]

/-- Witness for C5: no flags at all. -/
theorem C5_witness : Run envTrivial ["describe"] = ⟨"", "", [], .ok⟩ :=
  C5_no_flags_no_effect envTrivial [] ⟨"", "", false⟩ (by decide) rfl rfl

/-- **C7** — With show-guids set, each printed instance line carries the
prefix `Guid: <instance-guid> - ` (the guid from the instance's
resource metadata) between the indent and the `Name: ... - Org: ... -
Space: ...` portion; with show-guids false the line is the same without
any guid. -/
theorem C7_show_guids_prefix (spaces : List GetSpaces_Model)
    (orgs : List (String × String)) (inst : Resource) (sg gu nm : String)
    (hsg : mapGet inst.Entity "space_guid" = some (.jstr sg))
    (hgu : mapGet inst.Metadata "guid" = some (.jstr gu))
    (hnm : mapGet inst.Entity "name" = some (.jstr nm)) :
    instLine spaces orgs false inst =
      some ("  " ++ ("Name: " ++ nm ++ " - Org: " ++ orgLookup orgs (findSpace spaces sg).Guid
        ++ " - Space: " ++ (findSpace spaces sg).Name ++ "\n"))
    ∧ instLine spaces orgs true inst =
      some ("  " ++ ("Guid: " ++ gu ++ " - ") ++
        ("Name: " ++ nm ++ " - Org: " ++ orgLookup orgs (findSpace spaces sg).Guid
        ++ " - Space: " ++ (findSpace spaces sg).Name ++ "\n")) := by
  constructor <;>
    simp [instLine, hsg, hgu, hnm, assertString, Entity, String.append_empty]

/-- Witness for C7: a concrete instance resource, printed both ways. -/
theorem C7_witness :
    instLine [⟨"s1", "dev"⟩] [("s1", "acme")] false
        ⟨[("guid", .jstr "ig")], [("name", .jstr "db1"), ("space_guid", .jstr "s1")]⟩ =
      some "  Name: db1 - Org: acme - Space: dev\n"
    ∧ instLine [⟨"s1", "dev"⟩] [("s1", "acme")] true
        ⟨[("guid", .jstr "ig")], [("name", .jstr "db1"), ("space_guid", .jstr "s1")]⟩ =
      some "  Guid: ig - Name: db1 - Org: acme - Space: dev\n" := by
  have h := C7_show_guids_prefix [⟨"s1", "dev"⟩] [("s1", "acme")]
    ⟨[("guid", .jstr "ig")], [("name", .jstr "db1"), ("space_guid", .jstr "s1")]⟩
    "s1" "ig" "db1" (by decide) (by decide) (by decide)
  exact ⟨by rw [h.1]; decide, by rw [h.2]; decide⟩

/-- **C8** — `DescribeService` has an empty body: it performs no API
call, prints nothing, and returns normally; consequently the `-s` path
of `Run` (no `-b` given) produces no output at all. -/
theorem C8_service_stub :
    DescribeService = ⟨"", "", [], .ok⟩
    ∧ (∀ (env : Env) (rest : List String) (fl : Flags),
        ParseFlags ("describe" :: rest) = .ok fl → fl.b = "" →
        Run env ("describe" :: rest) = ⟨"", "", [], .ok⟩) := by
  refine ⟨rfl, fun env rest fl h hb => ?_⟩
  simp only [Run, if_pos rfl, h, hb]
  by_cases hs : fl.s = "" <;> simp [hs, seqResult, emptyResult, DescribeService]

/-- Witness for C8: `describe -s my-service` prints nothing and calls
nothing. -/
theorem C8_witness : Run envTrivial ["describe", "-s", "my-service"] = ⟨"", "", [], .ok⟩ :=
  C8_service_stub.2 envTrivial ["-s", "my-service"] ⟨"", "my-service", false⟩ (by decide) rfl

/-- **C9** — `findSpace` returns the first space whose `Guid` equals
the given guid, and the zero-value model (empty guid and name) when no
space matches. -/
theorem C9_findSpace_first_match (spaces : List GetSpaces_Model) (g : String) :
    findSpace spaces g = ((spaces.find? fun sp => sp.Guid == g).getD ⟨"", ""⟩)
    ∧ ((∀ sp ∈ spaces, sp.Guid ≠ g) → findSpace spaces g = ⟨"", ""⟩) := by
  constructor
  · induction spaces with
    | nil => rfl
    | cons s rest ih =>
      cases hb : s.Guid == g with
      | true =>
        have h : s.Guid = g := by simpa using hb
        simp [findSpace, List.find?, hb, h]
      | false =>
        have h : ¬s.Guid = g := by simpa using hb
        simp [findSpace, List.find?, hb, h, ih]
  · induction spaces with
    | nil => intro _; rfl
    | cons s rest ih =>
      intro hall
      have hs : s.Guid ≠ g := hall s (by simp)
      simp only [findSpace, if_neg hs]
      exact ih fun sp hsp => hall sp (by simp [hsp])

/-- Witness for C9: a matching and a non-matching lookup. -/
theorem C9_witness :
    findSpace [⟨"a", "x"⟩, ⟨"b", "y"⟩] "b" = ⟨"b", "y"⟩
    ∧ findSpace [⟨"a", "x"⟩] "z" = ⟨"", ""⟩ :=
  ⟨by rw [(C9_findSpace_first_match [⟨"a", "x"⟩, ⟨"b", "y"⟩] "b").1]; decide,
   (C9_findSpace_first_match [⟨"a", "x"⟩] "z").2 (by decide)⟩

/-- What a normal return of `getOrgsAux` guarantees: entries of the
accumulator survive, every space processed got an entry, and every org
response consulted had a non-empty resource list. -/
theorem getOrgsAux_ok_spec (env : Env) :
    ∀ (l : List GetSpaces_Model) (acc m : List (String × String)),
      (getOrgsAux env acc l).result = .ok m →
      (∀ k, (List.lookup k acc).isSome = true → (List.lookup k m).isSome = true)
      ∧ (∀ sp ∈ l, (List.lookup sp.Guid m).isSome = true)
      ∧ (∀ sp ∈ l, ∀ resp,
          env.curl ("/v2/organizations?q=space_guid:" ++ sp.Guid) = .ok resp →
          resp.Resources ≠ []) := by
  intro l
  induction l with
  | nil =>
    intro acc m h
    have hm : acc = m := by simpa [getOrgsAux, Step.pure] using h
    subst hm
    exact ⟨fun _ hk => hk, fun _ hsp => by simp at hsp, fun _ hsp => by simp at hsp⟩
  | cons sp rest ih =>
    intro acc m h
    unfold getOrgsAux at h
    cases hc : env.curl ("/v2/organizations?q=space_guid:" ++ sp.Guid) with
    | error e => rw [curl_err hc] at h; simp [Step.bind] at h
    | ok resp =>
      rw [curl_ok hc] at h
      cases hr : resp.Resources with
      | nil => simp [Step.bind, hr, Step.halt] at h
      | cons r0 rs =>
        cases ha : assertString (mapGet r0.Entity "name") with
        | none => simp [Step.bind, hr, ha, Step.halt] at h
        | some nm =>
          simp only [Step.bind, hr, ha] at h
          obtain ⟨mono, covers, nonempty⟩ := ih ((sp.Guid, nm) :: acc) m h
          refine ⟨?_, ?_, ?_⟩
          · intro k hk
            refine mono k ?_
            cases hkb : k == sp.Guid <;> simp [List.lookup, hkb, hk]
          · intro sp2 hsp2
            rcases List.mem_cons.mp hsp2 with hhead | htail
            · subst hhead
              exact mono sp2.Guid (by simp [List.lookup])
            · exact covers sp2 htail
          · intro sp2 hsp2 resp2 hc2
            rcases List.mem_cons.mp hsp2 with hhead | htail
            · subst hhead
              rw [hc] at hc2
              have : resp = resp2 := by injection hc2
              rw [← this, hr]
              simp
            · exact nonempty sp2 htail resp2 hc2

/-- Environment whose single org query succeeds with one resource. -/
def envOrgOk : Env :=
  { curl := fun ep =>
      if ep = "/v2/organizations?q=space_guid:s1" then
        .ok ⟨1, [⟨[], [("name", .jstr "acme")]⟩]⟩
      else .error "x",
    username := "u",
    spaces := [⟨"s1", "dev"⟩] }

/-- Environment whose org queries succeed but report an empty resource
list (a positive `total_results` with no resources). -/
def envOrgEmpty : Env := ⟨fun _ => .ok ⟨1, []⟩, "u", []⟩

/-- **C10** — `getOrgs` reads `Resources[0]` of each org response with
no emptiness check: whenever it returns a map at all, that map covers
every input space and every consulted response had at least one
resource; and on a response with an empty resource list it faults
(panics) instead of returning. -/
theorem C10_getOrgs_partiality (env : Env) (spaces : List GetSpaces_Model) :
    (∀ m, (getOrgs env spaces).result = .ok m →
      (∀ sp ∈ spaces, (List.lookup sp.Guid m).isSome = true)
      ∧ (∀ sp ∈ spaces, ∀ resp,
          env.curl ("/v2/organizations?q=space_guid:" ++ sp.Guid) = .ok resp →
          resp.Resources ≠ []))
    ∧ (∀ (sp : GetSpaces_Model) (rest : List GetSpaces_Model) (resp : CurlResponse),
        env.curl ("/v2/organizations?q=space_guid:" ++ sp.Guid) = .ok resp →
        resp.Resources = [] →
        (getOrgs env (sp :: rest)).result = .error .panicH) := by
  constructor
  · intro m h
    obtain ⟨_, covers, nonempty⟩ := getOrgsAux_ok_spec env spaces [] m h
    exact ⟨covers, nonempty⟩
  · intro sp rest resp hc hr
    unfold getOrgs getOrgsAux
    rw [curl_ok hc]
    simp [Step.bind, hr, Step.halt]

/-- Witness for C10: a one-space run returns a covering map; an
empty-resources response makes `getOrgs` fault. -/
theorem C10_witness :
    (List.lookup "s1" [("s1", "acme")]).isSome = true
    ∧ (getOrgs envOrgEmpty [⟨"s0", "x"⟩]).result = .error .panicH :=
  ⟨((C10_getOrgs_partiality envOrgOk [⟨"s1", "dev"⟩]).1 [("s1", "acme")] (by decide)).1
      ⟨"s1", "dev"⟩ (by decide),
   (C10_getOrgs_partiality envOrgEmpty []).2 ⟨"s0", "x"⟩ [] ⟨1, []⟩ (by decide) rfl⟩

/-- **C2** — When the broker-name query reports zero results, or the
broker exists but the plan query reports zero results, `DescribeBroker`
prints only the warning text and terminates with exit code 0; no
further API call is made and none of the buffered report is printed. -/
theorem C2_not_found_warns_exit0 (env : Env) (b : String) (g : Bool) (bresp : CurlResponse) :
    (env.curl ("/v2/service_brokers?q=name:" ++ QueryEscape b) = .ok bresp →
      bresp.TotalResults = 0 →
      DescribeBroker env b g =
        ⟨b ++ " not found", "",
         [.curlGet ("/v2/service_brokers?q=name:" ++ QueryEscape b)], .exit 0⟩)
    ∧ (∀ (rb : Resource) (rbs : List Resource) (presp : CurlResponse),
        env.curl ("/v2/service_brokers?q=name:" ++ QueryEscape b) = .ok bresp →
        bresp.TotalResults ≠ 0 →
        bresp.Resources = rb :: rbs →
        env.curl ("/v2/service_plans?q=service_broker_guid:" ++
          gofmtS (mapGet rb.Metadata "guid")) = .ok presp →
        presp.TotalResults = 0 →
        DescribeBroker env b g =
          ⟨b ++ " has no plans",
           "Describing broker " ++ b ++ " as visible by " ++ env.username ++ "\n\n",
           [.curlGet ("/v2/service_brokers?q=name:" ++ QueryEscape b), .username,
            .curlGet ("/v2/service_plans?q=service_broker_guid:" ++
              gofmtS (mapGet rb.Metadata "guid"))],
           .exit 0⟩) := by
  constructor
  · intro h1 h0
    unfold DescribeBroker DescribeBrokerStep
    rw [curl_ok h1]
    simp [Step.bind, h0, Step.halt, finishStep, WarnText]
  · intro rb rbs presp h1 h0 h3 h4 h5
    unfold DescribeBroker DescribeBrokerStep
    rw [curl_ok h1]
    simp [Step.bind, h0, h3, usernameStep, Step.write, curl_ok h4, h5, Step.halt,
      finishStep, WarnText, Entity, String.append_empty, String.empty_append]

/-- Environment with no broker matching `nope`. -/
def envNoBroker : Env :=
  { curl := fun ep =>
      if ep = "/v2/service_brokers?q=name:nope" then .ok ⟨0, []⟩ else .error "x",
    username := "u",
    spaces := [] }

/-- Environment where broker `b2` exists but has no plans. -/
def envNoPlans : Env :=
  { curl := fun ep =>
      if ep = "/v2/service_brokers?q=name:b2" then .ok ⟨1, [⟨[("guid", .jstr "bg")], []⟩]⟩
      else if ep = "/v2/service_plans?q=service_broker_guid:bg" then .ok ⟨0, []⟩
      else .error "x",
    username := "u",
    spaces := [] }

/-- Witness for C2: both warning paths on concrete environments. -/
theorem C2_witness :
    DescribeBroker envNoBroker "nope" false =
      ⟨"nope" ++ " not found", "",
       [.curlGet ("/v2/service_brokers?q=name:" ++ QueryEscape "nope")], .exit 0⟩
    ∧ DescribeBroker envNoPlans "b2" false =
      ⟨"b2" ++ " has no plans",
       "Describing broker " ++ "b2" ++ " as visible by " ++ envNoPlans.username ++ "\n\n",
       [.curlGet ("/v2/service_brokers?q=name:" ++ QueryEscape "b2"), .username,
        .curlGet ("/v2/service_plans?q=service_broker_guid:" ++
          gofmtS (mapGet (Resource.mk [("guid", .jstr "bg")] []).Metadata "guid"))],
       .exit 0⟩ :=
  ⟨(C2_not_found_warns_exit0 envNoBroker "nope" false ⟨0, []⟩).1 (by decide) rfl,
   (C2_not_found_warns_exit0 envNoPlans "b2" false ⟨1, [⟨[("guid", .jstr "bg")], []⟩]⟩).2
     ⟨[("guid", .jstr "bg")], []⟩ [] ⟨0, []⟩ (by decide) (by decide) rfl (by decide) rfl⟩

theorem getOrgs_out (env : Env) (spaces : List GetSpaces_Model) :
    (getOrgs env spaces).out = "" :=
  getOrgsAux_out env spaces []

/-- A plan whose instance listing decodes with `total_results = 0`
contributes nothing: one curl call, no buffer output, normal return. -/
theorem planBlock_zero (env : Env) (spaces : List GetSpaces_Model)
    (orgs : List (String × String)) (g : Bool) (p : Resource) (u : String)
    (iresp : CurlResponse)
    (hu : assertString (mapGet p.Entity "service_instances_url") = some u)
    (hc : env.curl u = .ok iresp) (hz : ¬0 < iresp.TotalResults) :
    planBlock env spaces orgs g p = ⟨[.curlGet u], "", .ok ()⟩ := by
  unfold planBlock
  simp only [hu]
  rw [curl_ok hc]
  simp [Step.bind, hz, Step.pure]

/-- A plan whose instance listing reports a positive `total_results`
and whose block returns normally wrote `Plan <name>:` followed by the
instance lines. -/
theorem planBlock_pos_ok (env : Env) (spaces : List GetSpaces_Model)
    (orgs : List (String × String)) (g : Bool) (p : Resource) (u : String)
    (iresp : CurlResponse)
    (hu : assertString (mapGet p.Entity "service_instances_url") = some u)
    (hc : env.curl u = .ok iresp) (hpos : 0 < iresp.TotalResults)
    (hres : (planBlock env spaces orgs g p).result = .ok ()) :
    ∃ nm, assertString (mapGet p.Entity "name") = some nm ∧
      (planBlock env spaces orgs g p).out =
        "Plan " ++ (nm ++ (":\n" ++ (instLoop spaces orgs g iresp.Resources).out)) := by
  unfold planBlock at hres ⊢
  simp only [hu] at hres ⊢
  rw [curl_ok hc] at hres ⊢
  cases hnm : assertString (mapGet p.Entity "name") with
  | none => rw [hnm] at hres; simp [Step.bind, hpos, Step.halt] at hres
  | some nm =>
    refine ⟨nm, rfl, ?_⟩
    simp [Step.bind, hpos, hnm, Step.write, Entity, String.append_assoc, String.empty_append]

/-- When every plan's instance listing decodes with zero
`total_results`, the plan loop writes nothing and returns normally. -/
theorem planLoop_no_output (env : Env) (spaces : List GetSpaces_Model)
    (orgs : List (String × String)) (g : Bool) :
    ∀ plans : List Resource,
      (∀ p ∈ plans, ∃ u iresp,
        assertString (mapGet p.Entity "service_instances_url") = some u ∧
        env.curl u = .ok iresp ∧ iresp.TotalResults = 0) →
      (planLoop env spaces orgs g plans).out = ""
      ∧ (planLoop env spaces orgs g plans).result = .ok () := by
  intro plans
  induction plans with
  | nil => intro _; exact ⟨rfl, rfl⟩
  | cons p rest ih =>
    intro h
    obtain ⟨u, iresp, hu, hc, hz⟩ := h p (List.mem_cons_self p rest)
    have hpb := planBlock_zero env spaces orgs g p u iresp hu hc (by rw [hz]; omega)
    obtain ⟨iho, ihr⟩ := ih fun q hq => h q (List.mem_cons_of_mem p hq)
    constructor <;> simp [planLoop, hpb, Step.bind, iho, ihr]

/-- **C6** — For a broker whose every plan's instance listing reports
`total_results = 0`, the report contains no `Plan` lines (the printed
output is just the header plus the final newline); and a plan's block
writes a `Plan ` header if and only if its listing reports at least one
instance. -/
theorem C6_plan_header_iff_instances (env : Env) (b : String) (g : Bool)
    (bresp presp : CurlResponse) (rb : Resource) (rbs : List Resource)
    (orgsMap : List (String × String))
    (h1 : env.curl ("/v2/service_brokers?q=name:" ++ QueryEscape b) = .ok bresp)
    (h2 : bresp.TotalResults ≠ 0)
    (h3 : bresp.Resources = rb :: rbs)
    (h4 : env.curl ("/v2/service_plans?q=service_broker_guid:" ++
      gofmtS (mapGet rb.Metadata "guid")) = .ok presp)
    (h5 : presp.TotalResults ≠ 0)
    (h6 : (getOrgs env env.spaces).result = .ok orgsMap)
    (h7 : ∀ p ∈ presp.Resources, ∃ u iresp,
      assertString (mapGet p.Entity "service_instances_url") = some u ∧
      env.curl u = .ok iresp ∧ iresp.TotalResults = 0) :
    (DescribeBroker env b g).printed =
      "Describing broker " ++ b ++ " as visible by " ++ env.username ++ "\n\n" ++ "\n"
    ∧ (∀ (p : Resource) (u : String) (iresp : CurlResponse),
        assertString (mapGet p.Entity "service_instances_url") = some u →
        env.curl u = .ok iresp →
        (planBlock env env.spaces orgsMap g p).result = .ok () →
        ((∃ r, (planBlock env env.spaces orgsMap g p).out = "Plan " ++ r) ↔
          0 < iresp.TotalResults)) := by
  constructor
  · obtain ⟨ploO, ploR⟩ := planLoop_no_output env env.spaces orgsMap g presp.Resources h7
    have hoo : (getOrgs env env.spaces).out = "" := getOrgs_out env env.spaces
    unfold DescribeBroker DescribeBrokerStep
    rw [curl_ok h1]
    rcases hg : getOrgs env env.spaces with ⟨oc, oo, orr⟩
    rw [hg] at h6 hoo
    simp only at h6 hoo
    subst h6 hoo
    simp [Step.bind, h2, h3, usernameStep, Step.write, curl_ok h4, h5, getSpacesStep, hg,
      finishStep, Entity, ploO, ploR, String.append_empty, String.empty_append]
  · intro p u iresp hu hc hres
    by_cases hpos : 0 < iresp.TotalResults
    · obtain ⟨nm, _, hout⟩ :=
        planBlock_pos_ok env env.spaces orgsMap g p u iresp hu hc hpos hres
      exact ⟨fun _ => hpos, fun _ => ⟨_, hout⟩⟩
    · have hz := planBlock_zero env env.spaces orgsMap g p u iresp hu hc hpos
      constructor
      · rintro ⟨r, hr⟩
        rw [hz] at hr
        have hlen := congrArg String.length hr
        rw [String.length_append] at hlen
        have h0 : ("" : String).length = 0 := rfl
        have h5 : ("Plan " : String).length = 5 := rfl
        rw [h0, h5] at hlen
        omega
      · intro h; exact absurd h hpos

/-- Environment for the C6 witness: broker `b6` with two plans, each of
whose instance listings reports zero instances. -/
def envTwoEmptyPlans : Env :=
  { curl := fun ep =>
      if ep = "/v2/service_brokers?q=name:b6" then .ok ⟨1, [⟨[("guid", .jstr "bg")], []⟩]⟩
      else if ep = "/v2/service_plans?q=service_broker_guid:bg" then
        .ok ⟨2, [⟨[], [("name", .jstr "p1"), ("service_instances_url", .jstr "/i1")]⟩,
                 ⟨[], [("name", .jstr "p2"), ("service_instances_url", .jstr "/i2")]⟩]⟩
      else if ep = "/i1" then .ok ⟨0, []⟩
      else if ep = "/i2" then .ok ⟨0, []⟩
      else .error "x",
    username := "u",
    spaces := [] }

/-- Witness for C6: the two-empty-plans broker prints only the header,
and a concrete plan block's header appears exactly when its listing is
non-empty. -/
theorem C6_witness :
    (DescribeBroker envTwoEmptyPlans "b6" false).printed =
      "Describing broker " ++ "b6" ++ " as visible by " ++
        envTwoEmptyPlans.username ++ "\n\n" ++ "\n"
    ∧ ((∃ r, (planBlock envTwoEmptyPlans envTwoEmptyPlans.spaces [] false
          ⟨[], [("name", .jstr "p1"), ("service_instances_url", .jstr "/i1")]⟩).out =
            "Plan " ++ r) ↔
        (0 : Int) < (CurlResponse.mk 0 []).TotalResults) := by
  have h := C6_plan_header_iff_instances envTwoEmptyPlans "b6" false
    ⟨1, [⟨[("guid", .jstr "bg")], []⟩]⟩
    ⟨2, [⟨[], [("name", .jstr "p1"), ("service_instances_url", .jstr "/i1")]⟩,
         ⟨[], [("name", .jstr "p2"), ("service_instances_url", .jstr "/i2")]⟩]⟩
    ⟨[("guid", .jstr "bg")], []⟩ [] []
    (by decide) (by decide) rfl (by decide) (by decide) (by decide)
    (by intro p hp
        rcases List.mem_cons.mp hp with h1 | h1
        · exact ⟨"/i1", ⟨0, []⟩, by rw [h1]; exact ⟨rfl, by decide, rfl⟩⟩
        · rcases List.mem_cons.mp h1 with h2 | h2
          · exact ⟨"/i2", ⟨0, []⟩, by rw [h2]; exact ⟨rfl, by decide, rfl⟩⟩
          · simp at h2)
  exact ⟨h.1, h.2 ⟨[], [("name", .jstr "p1"), ("service_instances_url", .jstr "/i1")]⟩
    "/i1" ⟨0, []⟩ (by decide) (by decide) (by decide)⟩

/-- The C1 scenario: broker `mybroker` with one plan `gold` holding one
instance `db1` in space `dev` (guid `s1`) owned by org `acme`. -/
def envGold : Env :=
  { curl := fun ep =>
      if ep = "/v2/service_brokers?q=name:mybroker" then
        .ok ⟨1, [⟨[("guid", .jstr "broker-guid")], []⟩]⟩
      else if ep = "/v2/service_plans?q=service_broker_guid:broker-guid" then
        .ok ⟨1, [⟨[("guid", .jstr "plan-guid")],
                  [("name", .jstr "gold"),
                   ("service_instances_url", .jstr "/v2/service_plans/plan-guid/service_instances")]⟩]⟩
      else if ep = "/v2/organizations?q=space_guid:s1" then
        .ok ⟨1, [⟨[("guid", .jstr "org-guid")], [("name", .jstr "acme")]⟩]⟩
      else if ep = "/v2/service_plans/plan-guid/service_instances" then
        .ok ⟨1, [⟨[("guid", .jstr "inst-guid")],
                  [("name", .jstr "db1"), ("space_guid", .jstr "s1")]⟩]⟩
      else .error "unexpected endpoint",
    username := "admin",
    spaces := [⟨"s1", "dev"⟩] }

/-- Counterexample to **C1** as stated: in the claimed scenario the
printed output is not exactly `Plan gold:\n  Name: db1 - Org: acme -
Space: dev\n` — `DescribeBroker` also prints the `Describing broker ...
as visible by ...` header it buffered first, and `fmt.Println` appends
a final newline. -/
theorem C1_counterexample :
    (DescribeBroker envGold "mybroker" false).printed ≠
      "Plan gold:\n  Name: db1 - Org: acme - Space: dev\n"
    ∧ (DescribeBroker envGold "mybroker" false).printed =
      "Describing broker mybroker as visible by admin\n\nPlan gold:\n  Name: db1 - Org: acme - Space: dev\n\n" := by
  constructor <;> decide

/-- **C1 (amended)** — In the claimed scenario (one matching plan named
`gold`, one instance `db1` in space `dev`/guid `s1`, org `acme`,
show-guids false) the printed output is the report header
`Describing broker <b> as visible by <username>` and blank line,
followed by `Plan gold:\n  Name: db1 - Org: acme - Space: dev\n`, plus
the trailing newline appended by `fmt.Println`. -/
theorem C1_amended (env : Env) (b G url : String) (bresp presp iresp oresp : CurlResponse)
    (rb rp ri ro : Resource) (rtail : List Resource)
    (hb : env.curl ("/v2/service_brokers?q=name:" ++ QueryEscape b) = .ok bresp)
    (hb1 : bresp.TotalResults ≠ 0)
    (hbr : bresp.Resources = [rb])
    (hguid : mapGet rb.Metadata "guid" = some (.jstr G))
    (hp : env.curl ("/v2/service_plans?q=service_broker_guid:" ++ G) = .ok presp)
    (hp1 : presp.TotalResults ≠ 0)
    (hpr : presp.Resources = [rp])
    (hpname : mapGet rp.Entity "name" = some (.jstr "gold"))
    (hpurl : mapGet rp.Entity "service_instances_url" = some (.jstr url))
    (hspaces : env.spaces = [⟨"s1", "dev"⟩])
    (ho : env.curl "/v2/organizations?q=space_guid:s1" = .ok oresp)
    (hor : oresp.Resources = ro :: rtail)
    (honame : mapGet ro.Entity "name" = some (.jstr "acme"))
    (hi : env.curl url = .ok iresp)
    (hi1 : 0 < iresp.TotalResults)
    (hir : iresp.Resources = [ri])
    (hiname : mapGet ri.Entity "name" = some (.jstr "db1"))
    (hisg : mapGet ri.Entity "space_guid" = some (.jstr "s1")) :
    (DescribeBroker env b false).printed =
      "Describing broker " ++ b ++ " as visible by " ++ env.username ++ "\n\n" ++
        "Plan gold:\n  Name: db1 - Org: acme - Space: dev\n" ++ "\n" := by
  unfold DescribeBroker DescribeBrokerStep
  rw [curl_ok hb]
  simp [Step.bind, hb1, hbr, usernameStep, Step.write, hguid, gofmtS, curl_ok hp, hp1,
    hpr, getSpacesStep, hspaces, getOrgs, getOrgsAux, curl_ok ho, hor, honame,
    assertString, planLoop, planBlock, hpurl, hpname, curl_ok hi, hi1, hir, instLoop,
    instLine, hisg, hiname, findSpace, orgLookup, List.lookup, Entity, finishStep,
    Step.pure, Step.halt, String.append_empty, String.empty_append]

/-- Witness for the amended C1 on the concrete scenario environment. -/
theorem C1_witness :
    (DescribeBroker envGold "mybroker" false).printed =
      "Describing broker " ++ "mybroker" ++ " as visible by " ++ envGold.username ++ "\n\n" ++
        "Plan gold:\n  Name: db1 - Org: acme - Space: dev\n" ++ "\n" :=
  C1_amended envGold "mybroker" "broker-guid"
    "/v2/service_plans/plan-guid/service_instances"
    ⟨1, [⟨[("guid", .jstr "broker-guid")], []⟩]⟩
    ⟨1, [⟨[("guid", .jstr "plan-guid")],
          [("name", .jstr "gold"),
           ("service_instances_url", .jstr "/v2/service_plans/plan-guid/service_instances")]⟩]⟩
    ⟨1, [⟨[("guid", .jstr "inst-guid")], [("name", .jstr "db1"), ("space_guid", .jstr "s1")]⟩]⟩
    ⟨1, [⟨[("guid", .jstr "org-guid")], [("name", .jstr "acme")]⟩]⟩
    ⟨[("guid", .jstr "broker-guid")], []⟩
    ⟨[("guid", .jstr "plan-guid")],
      [("name", .jstr "gold"),
       ("service_instances_url", .jstr "/v2/service_plans/plan-guid/service_instances")]⟩
    ⟨[("guid", .jstr "inst-guid")], [("name", .jstr "db1"), ("space_guid", .jstr "s1")]⟩
    ⟨[("guid", .jstr "org-guid")], [("name", .jstr "acme")]⟩
    []
    (by decide) (by decide) rfl (by decide) (by decide) (by decide) rfl (by decide)
    (by decide) rfl (by decide) rfl (by decide) (by decide) (by decide) rfl
    (by decide) (by decide)

end CfDescribe
